import Mathlib

/-!
Verification of the configuration-store core of this repository
(`redbot/core/drivers/apidriver.py` and
`redbot/cogs/audio/core/utilities/setting_cache/managed_lavalink_auto_update.py`),
as a shallow embedding in Lean 4.

JSON values are modelled by an inductive `Json`; HTTP exchanges by a pure
`server : HttpRequest → HttpResponse` parameter; exceptions by `Except`.
Parts of the repository that the driver uses but that are not present in the
sources (`IdentifierData.to_dict`, `ConfigCategory.get_pkey_info`,
`BaseDriver._split_primary_key`, the `Config` value façade) are modelled from
the spec, and are marked as such in their doc comments.
-/

/-- JSON values, the payload domain of the driver (`apidriver.py` treats
values opaquely as JSON-serializable nested structures). Numbers are
modelled as integers; the claims under study do not involve floats. -/
inductive Json where
  | null : Json
  | bool (b : Bool) : Json
  | num (n : Int) : Json
  | str (s : String) : Json
  | arr (elems : List Json) : Json
  | obj (fields : List (String × Json)) : Json

/-- Minimal JSON string escaping (quotes and backslashes), enough for a
canonical compact serialization of the payloads in scope. -/
def escapeJsonChar (c : Char) : String :=
  if c = '"' then "\\\""
  else if c = '\\' then "\\\\"
  else String.singleton c

def escapeJsonString (s : String) : String :=
  String.join (s.toList.map escapeJsonChar)

mutual

/-- Canonical compact JSON serialization: the abstract `dumps` of the JSON
codec (`orjson.dumps` / `ujson.dumps`), producing the JSON text of a value. -/
def dumpJson : Json → String
  | .null => "null"
  | .bool true => "true"
  | .bool false => "false"
  | .num n => toString n
  | .str s => "\"" ++ escapeJsonString s ++ "\""
  | .arr elems => "[" ++ dumpJsonList elems ++ "]"
  | .obj fields => "\x7b" ++ dumpJsonFields fields ++ "\x7d"

def dumpJsonList : List Json → String
  | [] => ""
  | [v] => dumpJson v
  | v :: rest => dumpJson v ++ "," ++ dumpJsonList rest

def dumpJsonFields : List (String × Json) → String
  | [] => ""
  | [(k, v)] => "\"" ++ escapeJsonString k ++ "\":" ++ dumpJson v
  | (k, v) :: rest =>
      "\"" ++ escapeJsonString k ++ "\":" ++ dumpJson v ++ "," ++ dumpJsonFields rest

end

mutual

/-- Python `repr` of a parsed-JSON Python value (dict/list/str/int/bool/None),
used by `str(...)` on containers. -/
def pyRepr : Json → String
  | .null => "None"
  | .bool true => "True"
  | .bool false => "False"
  | .num n => toString n
  | .str s => "\x27" ++ s ++ "\x27"
  | .arr elems => "[" ++ pyReprList elems ++ "]"
  | .obj fields => "\x7b" ++ pyReprFields fields ++ "\x7d"

def pyReprList : List Json → String
  | [] => ""
  | [v] => pyRepr v
  | v :: rest => pyRepr v ++ ", " ++ pyReprList rest

def pyReprFields : List (String × Json) → String
  | [] => ""
  | [(k, v)] => "\x27" ++ k ++ "\x27: " ++ pyRepr v
  | (k, v) :: rest => "\x27" ++ k ++ "\x27: " ++ pyRepr v ++ ", " ++ pyReprFields rest

end

/-- Python `str(...)` applied to a parsed-JSON Python value: a plain string
renders as itself, every other value as its `repr`. This is what
`errors.ConfigError(str(response_output))` stores as diagnostic text. -/
def pyStr : Json → String
  | .str s => s
  | v => pyRepr v

/-- A Python `bytes` object holding UTF-8 encoded text, modelled by the text
it decodes to (every byte string in scope is a codec dump of JSON text). -/
structure PyBytes where
  utf8 : String
deriving DecidableEq, Repr

/-- Python `bytes.decode("utf-8")`. -/
def PyBytes.decodeUtf8 (b : PyBytes) : String := b.utf8

/-- Python `str.encode(encoding)` for UTF-8. -/
def String.encodeUtf8 (s : String) : PyBytes := ⟨s⟩

/-- Which JSON codec the module selected at import time: `orjson` when
available, else `ujson` (`apidriver.py` lines 12–23). The spec (§4.3, §9)
specifies the two codecs as one serialization differing only in that
`orjson.dumps` yields bytes needing a decode-to-text step while
`ujson.dumps` yields text. -/
inductive Codec where
  | orjson : Codec
  | ujson : Codec
deriving DecidableEq, Repr

/-- `orjson.dumps`: JSON text as UTF-8 bytes (external library, modelled at
the boundary the spec gives it). -/
def orjson_dumps (value : Json) : PyBytes := ⟨dumpJson value⟩

/-- `ujson.dumps`: JSON text as a Python `str` (external library, modelled at
the boundary the spec gives it). -/
def ujson_dumps (value : Json) : String := dumpJson value

/-- `APIDriver._dump_to_string` (`apidriver.py` lines 272–277):
`ujson.dumps(value)` under ujson, `orjson.dumps(value).decode("utf-8")`
under orjson. -/
def dump_to_string : Codec → Json → String
  | .ujson, value => ujson_dumps value
  | .orjson, value => (orjson_dumps value).decodeUtf8

/-- `APIDriver._load_to_string` (`apidriver.py` lines 264–270): under ujson
the value is returned unchanged; under orjson a value with a `decode`
attribute would be UTF-8 decoded, but the inputs it receives are parsed JSON
from `response.json(...)`, which carries no `decode` attribute, so the value
is returned unchanged in both branches. -/
def load_to_string (_codec : Codec) (value : Json) : Json := value

/-- `JsonPayload.__init__` (`apidriver.py` lines 40–61): the body bytes
handed to aiohttp — `dumps(value)` directly under orjson (already bytes),
`dumps(value).encode(encoding)` under ujson. -/
def jsonPayloadBytes : Codec → Json → PyBytes
  | .orjson, value => orjson_dumps value
  | .ujson, value => (ujson_dumps value).encodeUtf8

/-- `IdentifierData` (spec §3): immutable value object addressing one config
path. Constructed in `apidriver.py` as
`IdentifierData(cog_name, uuid, category, pkey, (), pkey_len, is_custom)`. -/
structure IdentifierData where
  cog_name : String
  uuid : String
  category : String
  primary_key : List String
  secondary_key : List String
  primary_key_len : Nat
  is_custom : Bool
deriving DecidableEq, Repr

/-- Modelled from the spec: `IdentifierData.to_dict` is defined in
`redbot/core/drivers/base.py`, which is not among the sources. Spec §4.1
has the identifier "expose an ordered list of path segments", and §6 gives
the wire shape `"identifier": <ordered path segments>`; we model it as the
JSON array of those ordered segments. -/
def IdentifierData.to_dict (i : IdentifierData) : Json :=
  .arr (([i.cog_name, i.uuid, i.category] ++ i.primary_key ++ i.secondary_key).map .str)

/-- Endpoint templates (`apidriver.py` lines 31–37). -/
def _GET_ENDPOINT : String := "{base}/config/get"

def _AITER_COGS_ENDPOINT : String := "{base}/config/cogs"

def _SET_ENDPOINT : String := "{base}/config/set"

def _INCREMENT_ENDPOINT : String := "{base}/config/increment"

def _TOGGLE_ENDPOINT : String := "{base}/config/toggle"

def _CLEAR_ENDPOINT : String := "{base}/config/clear"

def _CLEAR_ALL_ENDPOINT : String := "{base}/config/clear_all"

/-- The driver's process-wide connection state (`APIDriver.__base_url`,
`APIDriver.__token`, `APIDriver._decoder`), set once by `initialize`. -/
structure DriverConn where
  base_url : String
  token : Option String
  codec : Codec

/-- One HTTP request as the driver hands it to the aiohttp session: method,
expanded URL, `Authorization` header, query parameters, and body bytes. -/
structure HttpRequest where
  method : String
  url : String
  authorization : Option String
  params : List (String × Json)
  payload : Option PyBytes

/-- One HTTP response: status code and body, the latter already parsed by
`response.json(loads=json_loads)` (spec §6: error bodies are JSON/text). -/
structure HttpResponse where
  status : Nat
  body : Json

/-- The remote service, abstracted as a pure request-to-response function;
each driver operation issues exactly one request against it. -/
abbrev HttpServer := HttpRequest → HttpResponse

/-- Python `dict.get(key)` on a parsed-JSON object: the value under `key`,
or `None` when the key is absent. (Called on non-dict values the real
`.get` would fail; the wire contract §6 makes success bodies objects.) -/
def dictGet : Json → String → Json
  | .obj fields, key =>
      match fields.lookup key with
      | some v => v
      | none => .null
  | _, _ => .null

/-- Errors raised by driver operations: `KeyError` (from `get`) and
`errors.ConfigError(text)` (from the other operations). -/
inductive DriverError where
  | keyError : DriverError
  | configError (text : String) : DriverError
deriving DecidableEq, Repr

namespace APIDriver

/-- Request built by `APIDriver.get` (`apidriver.py` lines 111–118):
POST to the get endpoint with body `{"identifier": full_identifiers}`. -/
def get_request (conn : DriverConn) (identifier_data : IdentifierData) : HttpRequest :=
  { method := "POST"
    url := _GET_ENDPOINT.replace "{base}" conn.base_url
    authorization := conn.token
    params := []
    payload := some (jsonPayloadBytes conn.codec
      (.obj [("identifier", identifier_data.to_dict)])) }

/-- `APIDriver.get` (`apidriver.py` lines 111–122): on status 200 return the
decoded body through `_load_to_string`; otherwise `raise KeyError`. -/
def get (conn : DriverConn) (identifier_data : IdentifierData)
    (server : HttpServer) : Except DriverError Json :=
  let response := server (get_request conn identifier_data)
  if response.status = 200 then
    .ok (load_to_string conn.codec response.body)
  else
    .error .keyError

/-- The JSON body of the `set` request (`apidriver.py` lines 129–131):
`{"identifier": full_identifiers, "config_data": self._dump_to_string(value)}`
— note `config_data` holds the *string* produced by `_dump_to_string`. -/
def set_request_json (conn : DriverConn) (identifier_data : IdentifierData)
    (value : Json) : Json :=
  .obj [("identifier", identifier_data.to_dict),
        ("config_data", .str (dump_to_string conn.codec value))]

/-- Request built by `APIDriver.set` (`apidriver.py` lines 124–132). -/
def set_request (conn : DriverConn) (identifier_data : IdentifierData)
    (value : Json) : HttpRequest :=
  { method := "PUT"
    url := _SET_ENDPOINT.replace "{base}" conn.base_url
    authorization := conn.token
    params := []
    payload := some (jsonPayloadBytes conn.codec
      (set_request_json conn identifier_data value)) }

/-- `APIDriver.set` (`apidriver.py` lines 124–139): parse the body, then on
status 200 return `response_output.get("value")` (after `_load_to_string`),
else `raise errors.ConfigError(str(response_output))`. -/
def set (conn : DriverConn) (identifier_data : IdentifierData) (value : Json)
    (server : HttpServer) : Except DriverError Json :=
  let response := server (set_request conn identifier_data value)
  let response_output := response.body
  if response.status = 200 then
    .ok (dictGet (load_to_string conn.codec response_output) "value")
  else
    .error (.configError (pyStr response_output))

/-- Request built by `APIDriver.clear` (`apidriver.py` lines 141–147). -/
def clear_request (conn : DriverConn) (identifier_data : IdentifierData) : HttpRequest :=
  { method := "PUT"
    url := _CLEAR_ENDPOINT.replace "{base}" conn.base_url
    authorization := conn.token
    params := []
    payload := some (jsonPayloadBytes conn.codec
      (.obj [("identifier", identifier_data.to_dict)])) }

/-- `APIDriver.clear` (`apidriver.py` lines 141–154): same response handling
as `set`. -/
def clear (conn : DriverConn) (identifier_data : IdentifierData)
    (server : HttpServer) : Except DriverError Json :=
  let response := server (clear_request conn identifier_data)
  let response_output := response.body
  if response.status = 200 then
    .ok (dictGet (load_to_string conn.codec response_output) "value")
  else
    .error (.configError (pyStr response_output))

/-- The JSON body of the `inc` request (`apidriver.py` lines 166–172):
identifier plus `config_data` and `default`, both passed through
`_dump_to_string`. -/
def inc_request_json (conn : DriverConn) (identifier_data : IdentifierData)
    (value default : Json) : Json :=
  .obj [("identifier", identifier_data.to_dict),
        ("config_data", .str (dump_to_string conn.codec value)),
        ("default", .str (dump_to_string conn.codec default))]

/-- Request built by `APIDriver.inc` (`apidriver.py` lines 156–173). -/
def inc_request (conn : DriverConn) (identifier_data : IdentifierData)
    (value default : Json) : HttpRequest :=
  { method := "PUT"
    url := _INCREMENT_ENDPOINT.replace "{base}" conn.base_url
    authorization := conn.token
    params := []
    payload := some (jsonPayloadBytes conn.codec
      (inc_request_json conn identifier_data value default)) }

/-- `APIDriver.inc` (`apidriver.py` lines 156–180): same response handling
as `set`. -/
def inc (conn : DriverConn) (identifier_data : IdentifierData) (value default : Json)
    (server : HttpServer) : Except DriverError Json :=
  let response := server (inc_request conn identifier_data value default)
  let response_output := response.body
  if response.status = 200 then
    .ok (dictGet (load_to_string conn.codec response_output) "value")
  else
    .error (.configError (pyStr response_output))

/-- The JSON body of the `toggle` request (`apidriver.py` lines 189–195):
same shape as `inc` (a `None` value or default dumps to the string "null"). -/
def toggle_request_json (conn : DriverConn) (identifier_data : IdentifierData)
    (value default : Json) : Json :=
  .obj [("identifier", identifier_data.to_dict),
        ("config_data", .str (dump_to_string conn.codec value)),
        ("default", .str (dump_to_string conn.codec default))]

/-- Request built by `APIDriver.toggle` (`apidriver.py` lines 182–196). -/
def toggle_request (conn : DriverConn) (identifier_data : IdentifierData)
    (value default : Json) : HttpRequest :=
  { method := "PUT"
    url := _TOGGLE_ENDPOINT.replace "{base}" conn.base_url
    authorization := conn.token
    params := []
    payload := some (jsonPayloadBytes conn.codec
      (toggle_request_json conn identifier_data value default)) }

/-- `APIDriver.toggle` (`apidriver.py` lines 182–203): same response handling
as `set`. -/
def toggle (conn : DriverConn) (identifier_data : IdentifierData) (value default : Json)
    (server : HttpServer) : Except DriverError Json :=
  let response := server (toggle_request conn identifier_data value default)
  let response_output := response.body
  if response.status = 200 then
    .ok (dictGet (load_to_string conn.codec response_output) "value")
  else
    .error (.configError (pyStr response_output))

/-- Request built by `APIDriver.delete_all_data` (`apidriver.py`
lines 205–213): a PUT to the clear-all endpoint with the query parameter
`i_want_to_do_this=True` hardcoded by the driver; the caller's `**kwargs`
are accepted but never consulted, so they do not appear in the request. -/
def delete_all_data_request (conn : DriverConn)
    (_kwargs : List (String × Json)) : HttpRequest :=
  { method := "PUT"
    url := _CLEAR_ALL_ENDPOINT.replace "{base}" conn.base_url
    authorization := conn.token
    params := [("i_want_to_do_this", .bool true)]
    payload := none }

/-- `APIDriver.delete_all_data` (`apidriver.py` lines 205–219): issues the
clear-all request unconditionally (no inspection of `kwargs`), then handles
the response exactly as `set` does. -/
def delete_all_data (conn : DriverConn) (kwargs : List (String × Json))
    (server : HttpServer) : Except DriverError Json :=
  let response := server (delete_all_data_request conn kwargs)
  let response_output := response.body
  if response.status = 200 then
    .ok (dictGet (load_to_string conn.codec response_output) "value")
  else
    .error (.configError (pyStr response_output))

end APIDriver

/-- Modelled from the spec: the config category registry (spec §3, §6) — an
"externally supplied mapping from category name to (primary-key arity,
is-custom flag)", modelled as a total function. -/
abbrev CategoryRegistry := String → Nat × Bool

/-- Modelled from the spec: `ConfigCategory.get_pkey_info(category,
custom_group_data)` lives in `redbot/core/drivers/base.py`, which is not
among the sources; per spec §3/§6 it consults the category registry for the
category's primary-key arity and is-custom flag. -/
def ConfigCategory.get_pkey_info (category : String)
    (custom_group_data : CategoryRegistry) : Nat × Bool :=
  custom_group_data category

/-- Modelled from the spec: `BaseDriver._split_primary_key` lives in
`redbot/core/drivers/base.py`, which is not among the sources; per spec
§4.2 it splits a full-category payload "by its declared primary-key arity"
into (primary-key tuple, leaf payload) pairs — at arity 0 the whole payload
is one leaf with the empty key, otherwise one level of object keys is
consumed per arity step. -/
def _split_primary_key : Nat → Json → List (List String × Json)
  | 0, all_data => [([], all_data)]
  | n + 1, .obj fields =>
      (fields.map fun kv =>
        (_split_primary_key n kv.2).map fun pd => (kv.1 :: pd.1, pd.2)).flatten
  | _ + 1, _ => []

/-- The rows held by the remote backend during migration, keyed by the full
`IdentifierData` of each `set`. -/
abbrev Store := List (IdentifierData × Json)

def storeLookup : Store → IdentifierData → Option Json
  | [], _ => none
  | (k, v) :: rest, i => if i = k then some v else storeLookup rest i

def storeInsert (st : Store) (i : IdentifierData) (v : Json) : Store :=
  (i, v) :: st

/-- The remote backend as `APIDriver.set` sees it during migration: a
deterministic verdict per (identifier, value). A rejected `set` is the
server answering non-200, which `set` raises as `ConfigError`; an accepted
`set` persists the row (spec §4.2: `set` fully replaces the value at the
identifier). -/
structure MigBackend where
  rejects : IdentifierData → Json → Bool

/-- One `await self.set(ident_data, data)` as issued by the migration: either
the row is stored, or the non-200 response surfaces as `ConfigError`. -/
def migrate_set (b : MigBackend) (st : Store) (i : IdentifierData) (v : Json) :
    Except DriverError Store :=
  if b.rejects i v then .error (.configError (pyStr v)) else .ok (storeInsert st i v)

/-- Migration state: the backend's rows plus the rows `log.critical` recorded
as failed (`apidriver.py` line 262). -/
structure MigState where
  store : Store
  failed_log : List (IdentifierData × Json)

/-- The `IdentifierData` built by `APIDriver.import_data` for the one bulk
`set` of a category (`apidriver.py` lines 235–242): empty primary and
secondary keys, arity and is-custom from `ConfigCategory.get_pkey_info`. -/
def bulk_ident (cog uuid : String) (registry : CategoryRegistry)
    (category : String) : IdentifierData :=
  { cog_name := cog, uuid := uuid, category := category
    primary_key := [], secondary_key := []
    primary_key_len := (ConfigCategory.get_pkey_info category registry).1
    is_custom := (ConfigCategory.get_pkey_info category registry).2 }

/-- The `IdentifierData` built by `APIDriver._individual_migrate` for one
leaf `set` (`apidriver.py` lines 251–258). -/
def leaf_ident (cog uuid : String) (registry : CategoryRegistry)
    (category : String) (pkey : List String) : IdentifierData :=
  { cog_name := cog, uuid := uuid, category := category
    primary_key := pkey, secondary_key := []
    primary_key_len := (ConfigCategory.get_pkey_info category registry).1
    is_custom := (ConfigCategory.get_pkey_info category registry).2 }

/-- The per-leaf loop of `APIDriver._individual_migrate` (`apidriver.py`
lines 250–262): each leaf `set` is tried under its own `try`; a failure is
logged (`log.critical`) and the loop continues. -/
def migrate_leaves (b : MigBackend) (cog uuid : String) (registry : CategoryRegistry)
    (category : String) (st : MigState) :
    List (List String × Json) → Except DriverError MigState
  | [] => .ok st
  | (pkey, data) :: rest =>
      let ident := leaf_ident cog uuid registry category pkey
      match migrate_set b st.store ident data with
      | .ok s =>
          migrate_leaves b cog uuid registry category ⟨s, st.failed_log⟩ rest
      | .error _ =>
          migrate_leaves b cog uuid registry category
            ⟨st.store, st.failed_log ++ [(ident, data)]⟩ rest

/-- `APIDriver._individual_migrate` (`apidriver.py` lines 248–262): split the
category payload by its primary-key arity, then run the per-leaf loop. -/
def _individual_migrate (b : MigBackend) (cog uuid : String)
    (registry : CategoryRegistry) (st : MigState) (category : String)
    (all_data : Json) : Except DriverError MigState :=
  let splitted_pkey :=
    _split_primary_key (ConfigCategory.get_pkey_info category registry).1 all_data
  migrate_leaves b cog uuid registry category st splitted_pkey

/-- `APIDriver.import_data` (`apidriver.py` lines 231–246): for each
(category, payload) pair, first try one bulk `set` with empty primary key;
on any exception fall back to `_individual_migrate` for that category (whose
own failures, were there any, would propagate — the fallback call sits
inside the `except` block, not under a further `try`). -/
def import_data (b : MigBackend) (cog uuid : String) (registry : CategoryRegistry)
    (st : MigState) : List (String × Json) → Except DriverError MigState
  | [] => .ok st
  | (category, all_data) :: rest =>
      match migrate_set b st.store (bulk_ident cog uuid registry category) all_data with
      | .ok s => import_data b cog uuid registry ⟨s, st.failed_log⟩ rest
      | .error _ =>
          match _individual_migrate b cog uuid registry st category all_data with
          | .ok st' => import_data b cog uuid registry st' rest
          | .error e => .error e

/-- Modelled from the spec: the `Config` value façade behind the manager
(`redbot.core.Config`, not among the sources). Spec §4.4/§8: the backend
holds an optional stored value, falls back to a declared default on read
(`self._config.lavalink.autoupdate()`), and a call counter verifies
"without any backend access". `default_value` models
`self._config.defaults["GLOBAL"]["lavalink"]["autoupdate"]`, a local
attribute readable without a backend round trip. -/
structure ConfigBackend where
  stored : Option Bool
  default_value : Bool
  reads : Nat
  writes : Nat
deriving DecidableEq, Repr

/-- `await self._config.lavalink.autoupdate()`: one backend read, returning
the stored value or the declared default. -/
def ConfigBackend.autoupdate_value (c : ConfigBackend) : Bool × ConfigBackend :=
  (c.stored.getD c.default_value, { c with reads := c.reads + 1 })

/-- `await self._config.lavalink.autoupdate.set(b)`: one backend write. -/
def ConfigBackend.autoupdate_set (c : ConfigBackend) (b : Bool) : ConfigBackend :=
  { c with stored := some b, writes := c.writes + 1 }

/-- `await self._config.lavalink.autoupdate.clear()`: one backend write
removing the stored value. -/
def ConfigBackend.autoupdate_clear (c : ConfigBackend) : ConfigBackend :=
  { c with stored := none, writes := c.writes + 1 }

/-- `LavalinkAutoUpdateManager` (`managed_lavalink_auto_update.py`
lines 12–17): per-instance cache flag, the private cache dictionary
`_cached_global : Dict[None, bool]` (keyed solely by `None`, hence an
`Option Bool`), and the config façade. -/
structure LavalinkAutoUpdateManager where
  enable_cache : Bool
  cached_global : Option Bool
  config : ConfigBackend
deriving DecidableEq, Repr

/-- An opaque discord guild; `get_context_value` consumes it as a context
key only (spec §1: discord value objects are opaque context keys). -/
structure Guild where
  id : Nat
deriving DecidableEq, Repr

namespace LavalinkAutoUpdateManager

/-- `get_global` (`managed_lavalink_auto_update.py` lines 19–26): a cached
value is served when `enable_cache` holds and the key is present; otherwise
read through the backend and (unconditionally) populate the cache entry. -/
def get_global (m : LavalinkAutoUpdateManager) : Bool × LavalinkAutoUpdateManager :=
  match m.enable_cache, m.cached_global with
  | true, some ret => (ret, m)
  | _, _ =>
      let (ret, cfg) := m.config.autoupdate_value
      (ret, { m with cached_global := some ret, config := cfg })

/-- `set_global` (`managed_lavalink_auto_update.py` lines 28–34): a real
boolean is written to the backend and cached; the `None` sentinel clears the
backend value and caches the locally known default. -/
def set_global (m : LavalinkAutoUpdateManager) (set_to : Option Bool) :
    LavalinkAutoUpdateManager :=
  match set_to with
  | some b => { m with config := m.config.autoupdate_set b, cached_global := some b }
  | none =>
      { m with config := m.config.autoupdate_clear
               cached_global := some m.config.default_value }

/-- `get_context_value` (`managed_lavalink_auto_update.py` lines 36–37):
`return await self.get_global()` — the guild argument is never consulted. -/
def get_context_value (m : LavalinkAutoUpdateManager) (_guild : Guild) :
    Bool × LavalinkAutoUpdateManager :=
  get_global m

/-- `reset_globals` (`managed_lavalink_auto_update.py` lines 39–41). -/
def reset_globals (m : LavalinkAutoUpdateManager) : LavalinkAutoUpdateManager :=
  { m with cached_global := none }

end LavalinkAutoUpdateManager

/-- A concrete identifier (the spec §8 example path). -/
def sampleIdent : IdentifierData :=
  { cog_name := "music", uuid := "1", category := "GLOBAL"
    primary_key := [], secondary_key := []
    primary_key_len := 0, is_custom := false }

/-- A concrete connection state for witnesses and counterexamples. -/
def sampleConn : DriverConn :=
  { base_url := "http://localhost:8000", token := some "hunter2", codec := .orjson }

/-- A concrete migration backend that rejects exactly the bulk (empty
primary key) writes, forcing the per-leaf fallback. -/
def mig_backend_sample : MigBackend :=
  ⟨fun i _ => decide (i.primary_key = [])⟩

/-- A concrete category registry: every category has arity 1, not custom. -/
def registry_sample : CategoryRegistry := fun _ => (1, false)

/-- The empty migration state. -/
def mig_state0 : MigState := ⟨[], []⟩

/-- One category of migration rows whose bulk write will be rejected. -/
def mig_rows_sample : List (String × Json) :=
  [("GUILD", Json.obj [("1", Json.bool true)])]

/-- A manager with caching disabled, an empty cache, and a backend storing
`true` (counterexample state for the disabled-cache claim). -/
def mgr_disabled_sample : LavalinkAutoUpdateManager :=
  { enable_cache := false, cached_global := none
    config := { stored := some true, default_value := false, reads := 0, writes := 0 } }

/-- A manager with caching enabled and an empty cache. -/
def mgr_enabled_sample : LavalinkAutoUpdateManager :=
  { enable_cache := true, cached_global := none
    config := { stored := some true, default_value := false, reads := 0, writes := 0 } }

/-- Helper: `_dump_to_string` yields the JSON text of the value under either
codec branch. -/
theorem dump_to_string_eq_dumpJson (c : Codec) (v : Json) :
    dump_to_string c v = dumpJson v := by
  cases c <;> rfl

/-- C1 counterexample: on a non-200 response, `APIDriver.get` raises a bare
`KeyError`, which is not a structured configuration error carrying the raw
response body — refuting the claim for the `get` operation. -/
theorem C1_counterexample_get_non200 :
    APIDriver.get sampleConn sampleIdent
      (fun _ => { status := 500, body := Json.str "Internal Server Error" })
      = .error .keyError
    ∧ DriverError.keyError ≠ .configError "Internal Server Error" := by
  exact ⟨rfl, by decide⟩

/-- C1 (amended): on any non-200 status, `set`, `clear`, `inc`, `toggle` and
`delete_all_data` uniformly raise `ConfigError` carrying `str()` of the
parsed response body, with no per-status-code branching; `get` instead
raises a bare `KeyError` without diagnostic text. -/
theorem C1_non200_error_mapping (conn : DriverConn) (i : IdentifierData)
    (v d : Json) (kwargs : List (String × Json)) (resp : HttpResponse)
    (h : resp.status ≠ 200) :
    APIDriver.set conn i v (fun _ => resp) = .error (.configError (pyStr resp.body))
    ∧ APIDriver.clear conn i (fun _ => resp) = .error (.configError (pyStr resp.body))
    ∧ APIDriver.inc conn i v d (fun _ => resp) = .error (.configError (pyStr resp.body))
    ∧ APIDriver.toggle conn i v d (fun _ => resp)
        = .error (.configError (pyStr resp.body))
    ∧ APIDriver.delete_all_data conn kwargs (fun _ => resp)
        = .error (.configError (pyStr resp.body))
    ∧ APIDriver.get conn i (fun _ => resp) = .error .keyError := by
  refine ⟨?_, ?_, ?_, ?_, ?_, ?_⟩ <;>
    simp [APIDriver.set, APIDriver.clear, APIDriver.inc, APIDriver.toggle,
      APIDriver.delete_all_data, APIDriver.get, h]

/-- Witness for the amended C1 at a concrete 500 response. -/
theorem C1_non200_error_mapping_witness :
    APIDriver.set sampleConn sampleIdent Json.null (fun _ => ⟨500, Json.str "boom"⟩)
      = .error (.configError "boom")
    ∧ APIDriver.clear sampleConn sampleIdent (fun _ => ⟨500, Json.str "boom"⟩)
      = .error (.configError "boom")
    ∧ APIDriver.inc sampleConn sampleIdent Json.null Json.null
        (fun _ => ⟨500, Json.str "boom"⟩) = .error (.configError "boom")
    ∧ APIDriver.toggle sampleConn sampleIdent Json.null Json.null
        (fun _ => ⟨500, Json.str "boom"⟩) = .error (.configError "boom")
    ∧ APIDriver.delete_all_data sampleConn [] (fun _ => ⟨500, Json.str "boom"⟩)
      = .error (.configError "boom")
    ∧ APIDriver.get sampleConn sampleIdent (fun _ => ⟨500, Json.str "boom"⟩)
      = .error .keyError :=
  C1_non200_error_mapping sampleConn sampleIdent Json.null Json.null []
    ⟨500, Json.str "boom"⟩ (by decide)

/-- C2 counterexample: `delete_all_data` invoked with no confirmation flag at
all is not rejected — it issues the clear-all request (with the
confirmation parameter hardcoded by the driver itself) and completes the
wipe, refuting "rejected before any network access occurs". -/
theorem C2_counterexample_wipe_without_confirmation :
    APIDriver.delete_all_data sampleConn []
      (fun _ => { status := 200, body := Json.obj [("value", Json.null)] })
      = .ok Json.null
    ∧ (APIDriver.delete_all_data_request sampleConn []).params
        = [("i_want_to_do_this", Json.bool true)] :=
  ⟨rfl, rfl⟩

/-- C2 (amended): `delete_all_data` accepts arbitrary keyword arguments and
ignores them entirely: every invocation issues the same PUT to the
clear-all endpoint with the query parameter `i_want_to_do_this=True`
hardcoded by the driver; no caller confirmation is checked and no
rejection path exists. -/
theorem C2_delete_all_ignores_kwargs (conn : DriverConn)
    (kwargs : List (String × Json)) (server : HttpServer) :
    APIDriver.delete_all_data_request conn kwargs
      = APIDriver.delete_all_data_request conn []
    ∧ (APIDriver.delete_all_data_request conn kwargs).params
      = [("i_want_to_do_this", Json.bool true)]
    ∧ (APIDriver.delete_all_data_request conn kwargs).method = "PUT"
    ∧ APIDriver.delete_all_data conn kwargs server
      = APIDriver.delete_all_data conn [] server :=
  ⟨rfl, rfl, rfl, rfl⟩

/-- C4 counterexample: for the value `true`, the `set` request body carries
`"config_data": "true"` — the JSON *string* `"true"` (a further
string-encoded JSON document), not the JSON boolean `true`; the wire bytes
show the double encoding. -/
theorem C4_counterexample_config_data_double_encoded :
    dictGet (APIDriver.set_request_json sampleConn sampleIdent (Json.bool true))
        "config_data" = Json.str "true"
    ∧ Json.str "true" ≠ Json.bool true
    ∧ (APIDriver.set_request sampleConn sampleIdent (Json.bool true)).payload
        = some ⟨"\x7b\"identifier\":[\"music\",\"1\",\"GLOBAL\"],\"config_data\":\"true\"\x7d"⟩ := by
  refine ⟨rfl, fun h => Json.noConfusion h, rfl⟩

/-- C4 (amended): the request bodies of `set`, `inc` and `toggle` have shape
`{"identifier": <segments>, "config_data": <text>, "default": <text>}`
where `config_data` and `default` are JSON *strings* holding the
`_dump_to_string` JSON text of the value, not the value's own JSON
structure. -/
theorem C4_request_bodies_string_encode_values (conn : DriverConn)
    (i : IdentifierData) (v d : Json) :
    APIDriver.set_request_json conn i v
      = Json.obj [("identifier", i.to_dict), ("config_data", Json.str (dumpJson v))]
    ∧ APIDriver.inc_request_json conn i v d
      = Json.obj [("identifier", i.to_dict), ("config_data", Json.str (dumpJson v)),
                  ("default", Json.str (dumpJson d))]
    ∧ APIDriver.toggle_request_json conn i v d
      = Json.obj [("identifier", i.to_dict), ("config_data", Json.str (dumpJson v)),
                  ("default", Json.str (dumpJson d))] := by
  refine ⟨?_, ?_, ?_⟩ <;>
    simp [APIDriver.set_request_json, APIDriver.inc_request_json,
      APIDriver.toggle_request_json, dump_to_string_eq_dumpJson]

/-- C5: on a 200 response, `get` returns the raw decoded payload itself,
while `set`, `clear`, `inc` and `toggle` return the entry under the
`value` key of the decoded body. -/
theorem C5_success_result_unwrapping (conn : DriverConn) (i : IdentifierData)
    (v d : Json) (resp : HttpResponse) (h : resp.status = 200) :
    APIDriver.get conn i (fun _ => resp) = .ok resp.body
    ∧ APIDriver.set conn i v (fun _ => resp) = .ok (dictGet resp.body "value")
    ∧ APIDriver.clear conn i (fun _ => resp) = .ok (dictGet resp.body "value")
    ∧ APIDriver.inc conn i v d (fun _ => resp) = .ok (dictGet resp.body "value")
    ∧ APIDriver.toggle conn i v d (fun _ => resp)
        = .ok (dictGet resp.body "value") := by
  refine ⟨?_, ?_, ?_, ?_, ?_⟩ <;>
    simp [APIDriver.get, APIDriver.set, APIDriver.clear, APIDriver.inc,
      APIDriver.toggle, load_to_string, h]

/-- Witness for C5: a 200 body `{"value": 7}` — `get` hands back the whole
object, the others unwrap the 7. -/
theorem C5_success_result_unwrapping_witness :
    APIDriver.get sampleConn sampleIdent
      (fun _ => ⟨200, Json.obj [("value", Json.num 7)]⟩)
      = .ok (Json.obj [("value", Json.num 7)])
    ∧ APIDriver.set sampleConn sampleIdent Json.null
        (fun _ => ⟨200, Json.obj [("value", Json.num 7)]⟩) = .ok (Json.num 7)
    ∧ APIDriver.clear sampleConn sampleIdent
        (fun _ => ⟨200, Json.obj [("value", Json.num 7)]⟩) = .ok (Json.num 7)
    ∧ APIDriver.inc sampleConn sampleIdent Json.null Json.null
        (fun _ => ⟨200, Json.obj [("value", Json.num 7)]⟩) = .ok (Json.num 7)
    ∧ APIDriver.toggle sampleConn sampleIdent Json.null Json.null
        (fun _ => ⟨200, Json.obj [("value", Json.num 7)]⟩) = .ok (Json.num 7) :=
  C5_success_result_unwrapping sampleConn sampleIdent Json.null Json.null
    ⟨200, Json.obj [("value", Json.num 7)]⟩ rfl

/-- C6: the two codec branches are normalized by the driver: `_dump_to_string`
yields the same text under orjson (bytes then decode) and ujson (text
directly), and `JsonPayload` produces the same body bytes under orjson
(bytes directly) and ujson (text then encode). -/
theorem C6_codec_branches_agree (v : Json) :
    dump_to_string .orjson v = dump_to_string .ujson v
    ∧ jsonPayloadBytes .orjson v = jsonPayloadBytes .ujson v :=
  ⟨rfl, rfl⟩

/-- C7: with caching enabled, after `set_global x` an immediate `get_global`
returns `x` and leaves the state (in particular the backend read counter)
untouched — the cached entry is served with no backend read. -/
theorem C7_cached_get_after_set (m : LavalinkAutoUpdateManager) (x : Bool)
    (h : m.enable_cache = true) :
    (m.set_global (some x)).get_global = (x, m.set_global (some x))
    ∧ ((m.set_global (some x)).get_global).2.config.reads
        = (m.set_global (some x)).config.reads := by
  obtain ⟨ec, cg, cfg⟩ := m
  have hec : ec = true := h
  subst hec
  exact ⟨rfl, rfl⟩

/-- Witness for C7 at a concrete enabled-cache manager. -/
theorem C7_cached_get_after_set_witness :
    (mgr_enabled_sample.set_global (some false)).get_global
      = (false, mgr_enabled_sample.set_global (some false))
    ∧ ((mgr_enabled_sample.set_global (some false)).get_global).2.config.reads
        = (mgr_enabled_sample.set_global (some false)).config.reads :=
  C7_cached_get_after_set mgr_enabled_sample false rfl

/-- C8 counterexample: with caching disabled, `get_global` and `set_global`
still *modify* the cache dictionary — starting from an empty cache,
`get_global` populates the entry and `set_global` overwrites it — refuting
"bypasses the cache dictionary (leaving it unmodified)". -/
theorem C8_counterexample_cache_written_when_disabled :
    mgr_disabled_sample.enable_cache = false
    ∧ mgr_disabled_sample.cached_global = none
    ∧ (mgr_disabled_sample.get_global).2.cached_global = some true
    ∧ (mgr_disabled_sample.set_global (some false)).cached_global = some false :=
  ⟨rfl, rfl, rfl, rfl⟩

/-- C8 (amended): with caching disabled the external behavior is read-through
and write-through — every `get_global` performs exactly one backend read and
returns the backend value, every `set_global` writes the backend — but the
cache dictionary entry is still updated by both (it is only never *read*). -/
theorem C8_disabled_cache_reads_through (m : LavalinkAutoUpdateManager) (b : Bool)
    (h : m.enable_cache = false) :
    (m.get_global).1 = m.config.stored.getD m.config.default_value
    ∧ (m.get_global).2.config.reads = m.config.reads + 1
    ∧ (m.get_global).2.cached_global = some (m.get_global).1
    ∧ (m.set_global (some b)).config.stored = some b
    ∧ (m.set_global (some b)).config.writes = m.config.writes + 1
    ∧ (m.set_global (some b)).cached_global = some b := by
  obtain ⟨ec, cg, cfg⟩ := m
  have hec : ec = false := h
  subst hec
  exact ⟨rfl, rfl, rfl, rfl, rfl, rfl⟩

/-- Witness for the amended C8 at a concrete disabled-cache manager. -/
theorem C8_disabled_cache_reads_through_witness :
    (mgr_disabled_sample.get_global).1
      = mgr_disabled_sample.config.stored.getD mgr_disabled_sample.config.default_value
    ∧ (mgr_disabled_sample.get_global).2.config.reads
        = mgr_disabled_sample.config.reads + 1
    ∧ (mgr_disabled_sample.get_global).2.cached_global
        = some (mgr_disabled_sample.get_global).1
    ∧ (mgr_disabled_sample.set_global (some true)).config.stored = some true
    ∧ (mgr_disabled_sample.set_global (some true)).config.writes
        = mgr_disabled_sample.config.writes + 1
    ∧ (mgr_disabled_sample.set_global (some true)).cached_global = some true :=
  C8_disabled_cache_reads_through mgr_disabled_sample true rfl

/-- C9: `set_global none` (the reset-to-default sentinel) clears the backend
value, sets the cache entry to the locally known declared default, and
performs no backend read round trip. -/
theorem C9_reset_to_default_clears_and_caches (m : LavalinkAutoUpdateManager) :
    (m.set_global none).config.stored = none
    ∧ (m.set_global none).cached_global = some m.config.default_value
    ∧ (m.set_global none).config.reads = m.config.reads :=
  ⟨rfl, rfl, rfl⟩

/-- C10: `get_context_value` ignores its guild argument: any two guilds give
the same result on the same state, equal to the global read `get_global`. -/
theorem C10_context_value_entity_independent (m : LavalinkAutoUpdateManager)
    (g1 g2 : Guild) :
    m.get_context_value g1 = m.get_context_value g2
    ∧ m.get_context_value g1 = m.get_global :=
  ⟨rfl, rfl⟩

/-- Helper: lookup after an insert. -/
theorem storeLookup_insert (st : Store) (i j : IdentifierData) (v : Json) :
    storeLookup (storeInsert st i v) j = if j = i then some v else storeLookup st j :=
  rfl

/-- Helper: identifiers differing in primary key are distinct. -/
theorem leaf_ident_ne_of_pkey_ne (cog uuid : String) (registry : CategoryRegistry)
    (category : String) {p q : List String} (h : p ≠ q) :
    leaf_ident cog uuid registry category p ≠ leaf_ident cog uuid registry category q :=
  fun he => h (congrArg IdentifierData.primary_key he)

/-- Helper: identifiers differing in category are distinct. -/
theorem ident_ne_of_category_ne {i j : IdentifierData} (h : i.category ≠ j.category) :
    i ≠ j :=
  fun he => h (congrArg IdentifierData.category he)

/-- Helper: the per-leaf loop never raises — each leaf `set` sits under its
own `try`, failures are only logged. -/
theorem migrate_leaves_ok (b : MigBackend) (cog uuid : String)
    (registry : CategoryRegistry) (category : String) :
    ∀ (leaves : List (List String × Json)) (st : MigState),
      ∃ s', migrate_leaves b cog uuid registry category st leaves = .ok s' := by
  intro leaves
  induction leaves with
  | nil => exact fun st => ⟨st, rfl⟩
  | cons hd rest ih =>
    intro st
    obtain ⟨pkey, data⟩ := hd
    cases hb : b.rejects (leaf_ident cog uuid registry category pkey) data with
    | true =>
      simp only [migrate_leaves, migrate_set, hb, if_true]
      exact ih _
    | false =>
      simp only [migrate_leaves, migrate_set, hb, Bool.false_eq_true, if_false]
      exact ih _

/-- Helper: the per-leaf loop only writes this category's leaf identifiers;
every other identifier's row is untouched. -/
theorem migrate_leaves_frame (b : MigBackend) (cog uuid : String)
    (registry : CategoryRegistry) (category : String) :
    ∀ (leaves : List (List String × Json)) (st : MigState) (j : IdentifierData),
      (∀ pd ∈ leaves, leaf_ident cog uuid registry category pd.1 ≠ j) →
      ∀ s', migrate_leaves b cog uuid registry category st leaves = .ok s' →
      storeLookup s'.store j = storeLookup st.store j := by
  intro leaves
  induction leaves with
  | nil =>
    intro st j _ s' heq
    simp only [migrate_leaves] at heq
    cases heq
    rfl
  | cons hd rest ih =>
    intro st j hj s' heq
    obtain ⟨pkey, data⟩ := hd
    have hne : leaf_ident cog uuid registry category pkey ≠ j :=
      hj (pkey, data) (List.mem_cons_self _ _)
    have hj' : ∀ pd ∈ rest, leaf_ident cog uuid registry category pd.1 ≠ j :=
      fun pd hpd => hj pd (List.mem_cons_of_mem _ hpd)
    cases hb : b.rejects (leaf_ident cog uuid registry category pkey) data with
    | true =>
      simp only [migrate_leaves, migrate_set, hb, if_true] at heq
      exact ih ⟨st.store,
        st.failed_log ++ [(leaf_ident cog uuid registry category pkey, data)]⟩
        j hj' s' heq
    | false =>
      simp only [migrate_leaves, migrate_set, hb, Bool.false_eq_true, if_false] at heq
      have hrest := ih ⟨storeInsert st.store
        (leaf_ident cog uuid registry category pkey) data, st.failed_log⟩ j hj' s' heq
      rw [hrest]
      show storeLookup (storeInsert st.store _ data) j = storeLookup st.store j
      rw [storeLookup_insert, if_neg (fun hji => hne hji.symm)]

/-- Helper: an individually-settable leaf (one the backend accepts) is
present in the store after the per-leaf loop, provided the split's primary
keys are duplicate-free. -/
theorem migrate_leaves_lookup (b : MigBackend) (cog uuid : String)
    (registry : CategoryRegistry) (category : String) :
    ∀ (leaves : List (List String × Json)) (st : MigState)
      (pkey : List String) (data : Json),
      (pkey, data) ∈ leaves →
      (leaves.map Prod.fst).Nodup →
      b.rejects (leaf_ident cog uuid registry category pkey) data = false →
      ∀ s', migrate_leaves b cog uuid registry category st leaves = .ok s' →
      storeLookup s'.store (leaf_ident cog uuid registry category pkey) = some data := by
  intro leaves
  induction leaves with
  | nil => intro st pkey data hmem; exact absurd hmem (List.not_mem_nil _)
  | cons hd rest ih =>
    intro st pkey data hmem hnodup hok s' heq
    obtain ⟨p0, d0⟩ := hd
    rcases List.mem_cons.mp hmem with hhd | htl
    · injection hhd with h1 h2
      subst h1
      subst h2
      simp only [migrate_leaves, migrate_set, hok, Bool.false_eq_true, if_false] at heq
      have hp0 : pkey ∉ rest.map Prod.fst := (List.nodup_cons.mp hnodup).1
      have hj' : ∀ pd ∈ rest,
          leaf_ident cog uuid registry category pd.1
            ≠ leaf_ident cog uuid registry category pkey := by
        intro pd hpd
        refine leaf_ident_ne_of_pkey_ne cog uuid registry category ?_
        intro hpe
        exact hp0 (hpe ▸ List.mem_map_of_mem Prod.fst hpd)
      have hframe := migrate_leaves_frame b cog uuid registry category rest _
        (leaf_ident cog uuid registry category pkey) hj' s' heq
      rw [hframe]
      show storeLookup (storeInsert st.store _ data) _ = some data
      rw [storeLookup_insert, if_pos rfl]
    · have hnodup' : (rest.map Prod.fst).Nodup := (List.nodup_cons.mp hnodup).2
      cases hb : b.rejects (leaf_ident cog uuid registry category p0) d0 with
      | true =>
        simp only [migrate_leaves, migrate_set, hb, if_true] at heq
        exact ih _ pkey data htl hnodup' hok s' heq
      | false =>
        simp only [migrate_leaves, migrate_set, hb, Bool.false_eq_true, if_false] at heq
        exact ih _ pkey data htl hnodup' hok s' heq

/-- Helper: `import_data` never raises — the bulk `set` of each category is
under a `try` whose handler is the per-leaf fallback, which never raises. -/
theorem import_data_ok (b : MigBackend) (cog uuid : String)
    (registry : CategoryRegistry) :
    ∀ (cog_data : List (String × Json)) (st : MigState),
      ∃ s', import_data b cog uuid registry st cog_data = .ok s' := by
  intro cog_data
  induction cog_data with
  | nil => exact fun st => ⟨st, rfl⟩
  | cons hd rest ih =>
    intro st
    obtain ⟨category, all_data⟩ := hd
    cases hb : b.rejects (bulk_ident cog uuid registry category) all_data with
    | false =>
      simp only [import_data, migrate_set, hb, Bool.false_eq_true, if_false]
      exact ih _
    | true =>
      obtain ⟨s1, h1⟩ := migrate_leaves_ok b cog uuid registry category
        (_split_primary_key (ConfigCategory.get_pkey_info category registry).1 all_data) st
      obtain ⟨s2, h2⟩ := ih s1
      refine ⟨s2, ?_⟩
      simp only [import_data, migrate_set, hb, if_true, _individual_migrate, h1]
      exact h2

/-- Helper: processing categories other than `j.category` leaves `j`'s row
untouched. -/
theorem import_data_frame (b : MigBackend) (cog uuid : String)
    (registry : CategoryRegistry) :
    ∀ (cog_data : List (String × Json)) (st : MigState) (j : IdentifierData),
      (∀ cd ∈ cog_data, cd.1 ≠ j.category) →
      ∀ s', import_data b cog uuid registry st cog_data = .ok s' →
      storeLookup s'.store j = storeLookup st.store j := by
  intro cog_data
  induction cog_data with
  | nil =>
    intro st j _ s' heq
    simp only [import_data] at heq
    cases heq
    rfl
  | cons hd rest ih =>
    intro st j hj s' heq
    obtain ⟨c0, d0⟩ := hd
    have hc0 : c0 ≠ j.category := hj (c0, d0) (List.mem_cons_self _ _)
    have hj' : ∀ cd ∈ rest, cd.1 ≠ j.category :=
      fun cd hcd => hj cd (List.mem_cons_of_mem _ hcd)
    cases hb : b.rejects (bulk_ident cog uuid registry c0) d0 with
    | false =>
      simp only [import_data, migrate_set, hb, Bool.false_eq_true, if_false] at heq
      have hrest := ih _ j hj' s' heq
      rw [hrest]
      show storeLookup (storeInsert st.store (bulk_ident cog uuid registry c0) d0) j
        = storeLookup st.store j
      rw [storeLookup_insert, if_neg]
      intro hji
      exact ident_ne_of_category_ne (i := bulk_ident cog uuid registry c0) (j := j)
        hc0 hji.symm
    | true =>
      obtain ⟨s1, h1⟩ := migrate_leaves_ok b cog uuid registry c0
        (_split_primary_key (ConfigCategory.get_pkey_info c0 registry).1 d0) st
      simp only [import_data, migrate_set, hb, if_true, _individual_migrate, h1] at heq
      have hrest := ih _ j hj' s' heq
      rw [hrest]
      have hjleaf : ∀ pd ∈ _split_primary_key
          (ConfigCategory.get_pkey_info c0 registry).1 d0,
          leaf_ident cog uuid registry c0 pd.1 ≠ j :=
        fun pd _ => ident_ne_of_category_ne hc0
      exact migrate_leaves_frame b cog uuid registry c0 _ st j hjleaf s1 h1

/-- C3: for any rows list with duplicate-free categories, `import_data` never
raises; for every category whose bulk `set` is rejected it falls back to
per-leaf writes, and every leaf that is individually settable (its own
`set` is accepted) is present in the store after the call — leaves whose
`set` also fails are only logged. -/
theorem C3_import_data_bulk_fallback (b : MigBackend) (cog uuid : String)
    (registry : CategoryRegistry) (category : String) (all_data : Json)
    (pkey : List String) (data : Json)
    (hbulk : b.rejects (bulk_ident cog uuid registry category) all_data = true)
    (hsettable : b.rejects (leaf_ident cog uuid registry category pkey) data = false)
    (hleaf : (pkey, data) ∈ _split_primary_key
        (ConfigCategory.get_pkey_info category registry).1 all_data)
    (hpnodup : ((_split_primary_key
        (ConfigCategory.get_pkey_info category registry).1 all_data).map
          Prod.fst).Nodup) :
    ∀ (cog_data : List (String × Json)) (st : MigState),
      (cog_data.map Prod.fst).Nodup →
      (category, all_data) ∈ cog_data →
      ∃ s', import_data b cog uuid registry st cog_data = .ok s'
        ∧ storeLookup s'.store (leaf_ident cog uuid registry category pkey)
            = some data := by
  intro cog_data
  induction cog_data with
  | nil => intro st _ hmem; exact absurd hmem (List.not_mem_nil _)
  | cons hd rest ih =>
    intro st hnodup hmem
    obtain ⟨c0, d0⟩ := hd
    rcases List.mem_cons.mp hmem with hhd | htl
    · injection hhd with h1 h2
      subst h1
      subst h2
      obtain ⟨s1, h1⟩ := migrate_leaves_ok b cog uuid registry category
        (_split_primary_key (ConfigCategory.get_pkey_info category registry).1
          all_data) st
      have hlk1 := migrate_leaves_lookup b cog uuid registry category _ st pkey data
        hleaf hpnodup hsettable s1 h1
      obtain ⟨s2, h2⟩ := import_data_ok b cog uuid registry rest s1
      have hcat_rest : ∀ cd ∈ rest,
          cd.1 ≠ (leaf_ident cog uuid registry category pkey).category := by
        intro cd hcd hceq
        have hceq' : cd.1 = category := hceq
        have hnotin : category ∉ rest.map Prod.fst := (List.nodup_cons.mp hnodup).1
        exact hnotin (hceq' ▸ List.mem_map_of_mem Prod.fst hcd)
      have hframe := import_data_frame b cog uuid registry rest s1
        (leaf_ident cog uuid registry category pkey) hcat_rest s2 h2
      refine ⟨s2, ?_, ?_⟩
      · simp only [import_data, migrate_set, hbulk, if_true, _individual_migrate, h1]
        exact h2
      · rw [hframe, hlk1]
    · have hnodup' : (rest.map Prod.fst).Nodup := (List.nodup_cons.mp hnodup).2
      cases hb0 : b.rejects (bulk_ident cog uuid registry c0) d0 with
      | false =>
        obtain ⟨s', h', hl⟩ := ih ⟨storeInsert st.store
          (bulk_ident cog uuid registry c0) d0, st.failed_log⟩ hnodup' htl
        refine ⟨s', ?_, hl⟩
        simp only [import_data, migrate_set, hb0, Bool.false_eq_true, if_false]
        exact h'
      | true =>
        obtain ⟨s1, h1⟩ := migrate_leaves_ok b cog uuid registry c0
          (_split_primary_key (ConfigCategory.get_pkey_info c0 registry).1 d0) st
        obtain ⟨s', h', hl⟩ := ih s1 hnodup' htl
        refine ⟨s', ?_, hl⟩
        simp only [import_data, migrate_set, hb0, if_true, _individual_migrate, h1]
        exact h'

/-- Witness for C3: a one-category rows list whose bulk write (empty primary
key) is rejected; the leaf row under primary key `["1"]` is accepted and
present after `import_data`, which returns normally. -/
theorem C3_import_data_bulk_fallback_witness :
    ∃ s', import_data mig_backend_sample "Audio" "1" registry_sample mig_state0
        mig_rows_sample = .ok s'
      ∧ storeLookup s'.store (leaf_ident "Audio" "1" registry_sample "GUILD" ["1"])
          = some (Json.bool true) :=
  C3_import_data_bulk_fallback mig_backend_sample "Audio" "1" registry_sample
    "GUILD" (Json.obj [("1", Json.bool true)]) ["1"] (Json.bool true)
    rfl rfl (List.mem_singleton.mpr rfl) (by decide)
    mig_rows_sample mig_state0 (by decide) (List.mem_singleton.mpr rfl)
